import Mathlib

/-
Verification of the TigerTrust scoring-and-decision pipeline.

Shallow embedding of the core business logic:
  * rse-server/src/types.ts          — WalletFeatures
  * rse-server scoring module        — computeTigerScore
  * rse-server/src/features.ts       — buildFeatures
  * rse-server/src/stripeOracle.ts   — deriveStripeIncomeFeatures
  * rse-server/src/solanaClient.ts   — getActivityRegularity
  * loan-decision-backend/config.js  — LOAN_TIERS, MIN_REQUIRED_INCOME_PROOF,
                                       REPAYMENT_TERMS
  * loan-decision-backend utils      — getVerifiedIncome
  * loan-decision-backend server     — POST /api/loan/apply pipeline

JavaScript numbers are embedded as exact integers (Int/Nat) and exact
rationals (ℚ).  The decimal literals 0.5, 0.8, 0.3 appearing in the source
are embedded as the exact rationals 1/2, 4/5, 3/10; for the integer ranges
handled by this program the IEEE-754 evaluation of Math.floor(x * c) agrees
with the exact-rational floor, so the embedding is faithful on all inputs
the claims quantify over.  Math.round is embedded as jsRound (round half
toward positive infinity, which is JavaScript's Math.round) and
Number(x.toFixed(k)) as rounding to k decimal places with ties away from
zero for the nonnegative values that occur here.
-/

namespace TigerTrust

/-- WalletFeatures from rse-server/src/types.ts.  The three trailing fields
are optional in the TypeScript interface and are embedded as Option. -/
structure WalletFeatures where
  txCount : Nat
  walletAgeDays : Nat
  nftCount : Nat
  tokenCount : Nat
  successfulRepayments : Nat
  defaults : Nat
  humanVerified : Bool
  hasVC : Bool
  activeDaysLast30 : Option Nat
  avgTxPerActiveDay : Option ℚ
  activityRegularityScore : Option Int
  deriving DecidableEq

/-- computeTigerScore from the scoring module.  The sequential mutation of
the JavaScript `score` variable is embedded as a chain of let bindings, in
source order: base 300, the conditional bonuses, repayments and defaults,
the verified-credential bonus, then the two clamp statements, and only
after the clamps the activity-regularity bonus.  The JavaScript guard
`f.activityRegularityScore && f.activityRegularityScore > 40` tests
truthiness first, so a present value of 0 is embedded as `v ≠ 0 ∧ v > 40`. -/
def computeTigerScore (f : WalletFeatures) : Int :=
  let s1 : Int := 300
  let s2 := if f.humanVerified then s1 + 80 else s1
  let s3 := if f.walletAgeDays > 180 then s2 + 40 else s2
  let s4 := if f.txCount > 100 then s3 + 40 else s3
  let s5 := if f.nftCount > 0 then s4 + 20 else s4
  let s6 := s5 + (f.successfulRepayments : Int) * 60
  let s7 := s6 - (f.defaults : Int) * 120
  let s8 := if f.hasVC then s7 + 30 else s7
  let s9 := if s8 < 0 then 0 else s8
  let s10 := if s9 > 1000 then 1000 else s9
  match f.activityRegularityScore with
  | some v => if v ≠ 0 ∧ v > 40 then s10 + 40 else s10
  | none => s10

/-- The additive part of the score before the clamp statements: base 300
plus every bonus and malus except the activity-regularity bonus. -/
def baseScoreSum (f : WalletFeatures) : Int :=
  300
  + (if f.humanVerified then 80 else 0)
  + (if f.walletAgeDays > 180 then 40 else 0)
  + (if f.txCount > 100 then 40 else 0)
  + (if f.nftCount > 0 then 20 else 0)
  + (f.successfulRepayments : Int) * 60
  - (f.defaults : Int) * 120
  + (if f.hasVC then 30 else 0)

/-- The activity-regularity bonus term, including the truthiness guard of
the source. -/
def activityBonus (f : WalletFeatures) : Int :=
  match f.activityRegularityScore with
  | some v => if v ≠ 0 ∧ v > 40 then 40 else 0
  | none => 0

/-- Modelled from the spec, section 4.2 wording: compute the complete
additive sum, with the activity-regularity bonus included, and clamp to
[0, 1000] only afterwards. -/
def specScoreSection42 (f : WalletFeatures) : Int :=
  min 1000 (max 0 (baseScoreSum f +
    (match f.activityRegularityScore with
     | some v => if v > 40 then 40 else 0
     | none => 0)))

/-- A feature record with every positive signal maxed: 20 successful
repayments alone contribute 1200 points, so the clamped sum reaches 1000
before the activity-regularity bonus is added. -/
def maxedFeatures : WalletFeatures :=
  { txCount := 200
    walletAgeDays := 200
    nftCount := 1
    tokenCount := 5
    successfulRepayments := 20
    defaults := 0
    humanVerified := true
    hasVC := true
    activeDaysLast30 := some 30
    avgTxPerActiveDay := some 5
    activityRegularityScore := some 50 }

/-- JavaScript Math.round: round half toward positive infinity. -/
def jsRound (q : ℚ) : Int :=
  Int.floor (q + 1/2)

/-- Number(x.toFixed(2)) for the nonnegative values occurring in this
program: round to 2 decimal places, ties upward. -/
def toFixed2Num (q : ℚ) : ℚ :=
  ((jsRound (q * 100) : Int) : ℚ) / 100

/-- Math.round(x * 100) / 100, the 2-decimal output rounding of the loan
endpoint. -/
def round2 (q : ℚ) : ℚ :=
  ((jsRound (q * 100) : Int) : ℚ) / 100

/-- x.toFixed(1) rendered as a decimal string, for the nonnegative
percentage values of the DTI rejection message. -/
def toFixed1 (q : ℚ) : String :=
  let n : Int := jsRound (q * 10)
  toString (n / 10) ++ "." ++ toString (n % 10)

/-- LoanTier record from loan-decision-backend/config.js. -/
structure LoanTier where
  level : Nat
  minTigerScore : Int
  maxLoanLimit : ℚ
  baseInterestRate : ℚ
  maxDtiRatio : ℚ
  loanApplicationVelocityLimit : Nat
  description : String
  deriving DecidableEq

/-- Tier level 0 of LOAN_TIERS. -/
def tier0 : LoanTier :=
  { level := 0, minTigerScore := 0, maxLoanLimit := 50, baseInterestRate := 15,
    maxDtiRatio := 0.2, loanApplicationVelocityLimit := 3,
    description := "Entry-level micro-loan. Build your trust!" }

/-- Tier level 1 of LOAN_TIERS. -/
def tier1 : LoanTier :=
  { level := 1, minTigerScore := 200, maxLoanLimit := 150, baseInterestRate := 10,
    maxDtiRatio := 0.3, loanApplicationVelocityLimit := 2,
    description := "Intermediate borrower. Higher limits, lower rates." }

/-- Tier level 2 of LOAN_TIERS. -/
def tier2 : LoanTier :=
  { level := 2, minTigerScore := 400, maxLoanLimit := 500, baseInterestRate := 7,
    maxDtiRatio := 0.4, loanApplicationVelocityLimit := 1,
    description := "Trusted borrower. Significant limits, good rates." }

/-- Tier level 3 of LOAN_TIERS. -/
def tier3 : LoanTier :=
  { level := 3, minTigerScore := 600, maxLoanLimit := 1000, baseInterestRate := 5,
    maxDtiRatio := 0.5, loanApplicationVelocityLimit := 1,
    description := "Elite borrower. Maximum limits, best rates." }

/-- The LOAN_TIERS table from loan-decision-backend/config.js, in its
source order (ascending minTigerScore). -/
def LOAN_TIERS : List LoanTier := [tier0, tier1, tier2, tier3]

/-- MIN_REQUIRED_INCOME_PROOF from loan-decision-backend/config.js. -/
def MIN_REQUIRED_INCOME_PROOF : ℚ := 100

/-- REPAYMENT_TERMS from loan-decision-backend/config.js. -/
def REPAYMENT_TERMS : List (String × Nat) :=
  [("7_days", 7), ("15_days", 15), ("30_days", 30), ("60_days", 60), ("90_days", 90)]

/-- The tier-selection loop of the apply endpoint:
`for (let i = LOAN_TIERS.length - 1; i >= 0; i--) if (score >= tiers[i].minTigerScore) break`,
i.e. prefer the qualifying tier with the largest index. -/
def findAppropriateTier : List LoanTier → Int → Option LoanTier
  | [], _ => none
  | t :: rest, score =>
    match findAppropriateTier rest score with
    | some u => some u
    | none => if t.minTigerScore ≤ score then some t else none

/-- UserProfile deserialized from the user-profile PDA
(loan-decision-backend/utils/loanProgram.js).  The borsh field
humanVerifiedVcHash is a byte array; getVerifiedIncome tests its
truthiness, so a missing hash is embedded as none. -/
structure UserProfile where
  tigerScore : Nat
  levelUpTier : Nat
  did : String
  humanVerifiedVcHash : Option (List Nat)
  createdAt : Nat
  updatedAt : Nat
  deriving DecidableEq

/-- getVerifiedIncome from loan-decision-backend/utils/loanProgram.js:
0 when the profile or its verification hash is absent, otherwise
Math.min(200 + Math.floor(tigerScore * 0.5), 10000). -/
def getVerifiedIncome (profile : Option UserProfile) : ℚ :=
  match profile with
  | none => 0
  | some p =>
    match p.humanVerifiedVcHash with
    | none => 0
    | some _ =>
      let baseIncome : ℚ := 200
      let scoreBonus : ℚ := ((Int.floor ((p.tigerScore : ℚ) * 0.5) : Int) : ℚ)
      min (baseIncome + scoreBonus) 10000

/-- The debt reduction of the apply endpoint: sum of
loan.outstandingAmount / 1000000 over the outstanding loans. -/
def debtOf (outstandingAmounts : List Nat) : ℚ :=
  outstandingAmounts.foldl (fun total a => total + (a : ℚ) / 1000000) 0

/-- Step 5 of the apply endpoint: Math.min of tier.maxLoanLimit,
Math.floor(tigerScore * 0.8) and Math.floor(verifiedIncome * 0.3). -/
def maxEligibleAmount (p : UserProfile) (t : LoanTier) : ℚ :=
  min t.maxLoanLimit
    (min ((Int.floor ((p.tigerScore : ℚ) * 0.8) : Int) : ℚ)
      ((Int.floor (getVerifiedIncome (some p) * 0.3) : Int) : ℚ))

/-- The DTI rejection message of the apply endpoint:
template literal with both ratios rendered by (x * 100).toFixed(1). -/
def dtiMessage (currentDti maxDtiRatio : ℚ) : String :=
  "High Debt-to-Income Ratio (" ++ toFixed1 (currentDti * 100) ++
    "%). Maximum allowed: " ++ toFixed1 (maxDtiRatio * 100) ++ "%"

/-- Rejection categories of the apply endpoint, one per early return,
carrying the computed values the corresponding message interpolates. -/
inductive Rejection where
  | missingFields
  | invalidAmount
  | invalidTerm
  | invalidWalletFormat
  | profileNotFound
  | insufficientScore (tigerScore : Nat)
  | insufficientIncome (verifiedIncome : ℚ)
  | highDebtToIncome (message : String)
  | velocityExceeded (recentApplications : Nat)
  | amountTooLow (requested maxApproved : ℚ)
  deriving DecidableEq

/-- The proposedTerms object of a successful apply response. -/
structure ProposedTerms where
  approvedAmount : ℚ
  requestedAmount : ℚ
  interestRate : ℚ
  repaymentTerm : String
  repaymentDays : Nat
  interestAmount : ℚ
  totalRepaymentAmount : ℚ
  dailyPayment : ℚ
  repaymentDueDate : Nat
  tierLevel : Nat
  tigerScore : Nat
  verifiedIncome : ℚ
  currentDti : ℚ
  outstandingDebt : ℚ
  deriving DecidableEq

/-- Outcome of the apply endpoint: approved terms or a categorized
rejection, never both. -/
inductive Decision where
  | approved (terms : ProposedTerms)
  | rejected (reason : Rejection)
  deriving DecidableEq

/-- Request-level inputs of POST /api/loan/apply together with the values
its upstream reads return.  fieldsPresent abstracts the truthiness check on
walletAddress/loanAmount/repaymentTerm, walletFormatOk the PublicKey parse,
outstandingAmounts the loans returned by getOutstandingLoans, and
recentApplications the velocity placeholder (Math.random in the source,
supplied here as an input), now the current UNIX timestamp in seconds. -/
structure ApplyInput where
  fieldsPresent : Bool
  loanAmount : ℚ
  repaymentTerm : String
  walletFormatOk : Bool
  profile : Option UserProfile
  outstandingAmounts : List Nat
  recentApplications : Nat
  now : Nat
  deriving DecidableEq

/-- Step 7 of the apply endpoint: the proposed terms, with simple interest
over 365 days and 2-decimal output rounding. -/
def mkProposedTerms (inp : ApplyInput) (p : UserProfile) (t : LoanTier)
    (repaymentDays : Nat) : ProposedTerms :=
  let verifiedMonthlyIncomeUSD := getVerifiedIncome (some p)
  let outstandingDebtUSD := debtOf inp.outstandingAmounts
  let currentDti := outstandingDebtUSD / verifiedMonthlyIncomeUSD
  let approvedAmount := min inp.loanAmount (maxEligibleAmount p t)
  let interestRate := t.baseInterestRate
  let interestAmount := approvedAmount * interestRate * (repaymentDays : ℚ) / (100 * 365)
  let totalRepaymentAmount := approvedAmount + interestAmount
  let dailyPayment := totalRepaymentAmount / (repaymentDays : ℚ)
  { approvedAmount := approvedAmount
    requestedAmount := inp.loanAmount
    interestRate := interestRate
    repaymentTerm := inp.repaymentTerm
    repaymentDays := repaymentDays
    interestAmount := round2 interestAmount
    totalRepaymentAmount := round2 totalRepaymentAmount
    dailyPayment := round2 dailyPayment
    repaymentDueDate := inp.now + repaymentDays * 24 * 60 * 60
    tierLevel := t.level
    tigerScore := p.tigerScore
    verifiedIncome := verifiedMonthlyIncomeUSD
    currentDti := ((jsRound (currentDti * 1000) : Int) : ℚ) / 10
    outstandingDebt := round2 outstandingDebtUSD }

/-- The POST /api/loan/apply pipeline of the loan-decision backend, gate by
gate in source order: input validation, profile resolution, tier scan,
income gate, DTI gate, velocity gate, amount resolution, term calculation.
The only amount rejection sits inside the `loanAmount > maxApprovedLoanAmount`
branch, mirroring the nested ifs of step 6 of the source. -/
def applyLoan (inp : ApplyInput) : Decision :=
  if inp.fieldsPresent = false then .rejected .missingFields
  else if inp.loanAmount ≤ 0 then .rejected .invalidAmount
  else
    match REPAYMENT_TERMS.lookup inp.repaymentTerm with
    | none => .rejected .invalidTerm
    | some repaymentDays =>
      if inp.walletFormatOk = false then .rejected .invalidWalletFormat
      else
        match inp.profile with
        | none => .rejected .profileNotFound
        | some userProfile =>
          match findAppropriateTier LOAN_TIERS (userProfile.tigerScore : Int) with
          | none => .rejected (.insufficientScore userProfile.tigerScore)
          | some appropriateTier =>
            let verifiedMonthlyIncomeUSD := getVerifiedIncome (some userProfile)
            if verifiedMonthlyIncomeUSD < MIN_REQUIRED_INCOME_PROOF then
              .rejected (.insufficientIncome verifiedMonthlyIncomeUSD)
            else
              let outstandingDebtUSD := debtOf inp.outstandingAmounts
              let currentDti := outstandingDebtUSD / verifiedMonthlyIncomeUSD
              if currentDti > appropriateTier.maxDtiRatio then
                .rejected (.highDebtToIncome (dtiMessage currentDti appropriateTier.maxDtiRatio))
              else if inp.recentApplications ≥ appropriateTier.loanApplicationVelocityLimit then
                .rejected (.velocityExceeded inp.recentApplications)
              else
                let maxApprovedLoanAmount := maxEligibleAmount userProfile appropriateTier
                if inp.loanAmount > maxApprovedLoanAmount then
                  if maxApprovedLoanAmount < 10 then
                    .rejected (.amountTooLow inp.loanAmount maxApprovedLoanAmount)
                  else .approved (mkProposedTerms inp userProfile appropriateTier repaymentDays)
                else .approved (mkProposedTerms inp userProfile appropriateTier repaymentDays)

/-- Result record of deriveStripeIncomeFeatures
(rse-server/src/stripeOracle.ts). -/
structure StripeIncomeFeatures where
  incomeVerified : Bool
  incomeBracket : String
  incomeDebtRatio : ℚ
  deriving DecidableEq

/-- deriveStripeIncomeFeatures from rse-server/src/stripeOracle.ts, with
the two sequential bracket reassignments embedded as nested lets. -/
def deriveStripeIncomeFeatures (monthlyIncome debt : ℚ) : StripeIncomeFeatures :=
  let incomeVerified := decide (monthlyIncome > 0)
  let b1 := "low"
  let b2 := if monthlyIncome > 2000 then "mid" else b1
  let b3 := if monthlyIncome > 5000 then "high" else b2
  let incomeDebtRatio := if debt = 0 then monthlyIncome else toFixed2Num (monthlyIncome / debt)
  { incomeVerified := incomeVerified
    incomeBracket := b3
    incomeDebtRatio := incomeDebtRatio }

/-- Result record of getActivityRegularity
(rse-server/src/solanaClient.ts). -/
structure ActivityRegularity where
  activeDaysLast30 : Nat
  avgTxPerActiveDay : ℚ
  activityRegularityScore : Int
  deriving DecidableEq

/-- The 30×24h window in milliseconds from getActivityRegularity. -/
def THIRTY_DAYS : Int := 30 * 24 * 60 * 60 * 1000

/-- The signature filter of getActivityRegularity:
`sigs.filter(s => s.blockTime && (now - s.blockTime * 1000) <= THIRTY_DAYS)`,
kept as the list of the surviving blockTime values (seconds).  The
truthiness test makes a null or zero blockTime fail the filter; `now` is in
milliseconds. -/
def recentSigs (now : Nat) (sigs : List (Option Nat)) : List Nat :=
  sigs.filterMap fun s =>
    match s with
    | none => none
    | some t => if t ≠ 0 ∧ (now : Int) - (t : Int) * 1000 ≤ THIRTY_DAYS then some t else none

/-- The UTC calendar day of a nonnegative UNIX timestamp in seconds;
`new Date(t * 1000).toISOString().slice(0, 10)` identifies two timestamps
exactly when their day numbers agree. -/
def utcDay (t : Nat) : Nat := t / 86400

/-- getActivityRegularity from rse-server/src/solanaClient.ts.  The Set of
ISO date strings is embedded as deduplication of UTC day numbers.  Note the
score formula consumes the raw quotient; only the returned
avgTxPerActiveDay field passes through toFixed(2). -/
def getActivityRegularity (now : Nat) (sigs : List (Option Nat)) : ActivityRegularity :=
  let recent := recentSigs now sigs
  let days := (recent.map utcDay).dedup
  let activeDaysLast30 := days.length
  let avgTxPerActiveDay : ℚ :=
    if activeDaysLast30 = 0 then 0 else (recent.length : ℚ) / (activeDaysLast30 : ℚ)
  let activityRegularityScore : ℚ :=
    min 100 ((activeDaysLast30 : ℚ) * 3 + avgTxPerActiveDay * 10)
  { activeDaysLast30 := activeDaysLast30
    avgTxPerActiveDay := toFixed2Num avgTxPerActiveDay
    activityRegularityScore := jsRound activityRegularityScore }

/-- The activity-regularity score as claim C8 and spec section 4.1 word it:
the average is rounded to 2 decimal places first and that rounded value
enters the score formula.  Second definition of a refinement claim, written
from the spec wording to be compared with getActivityRegularity. -/
def claimActivityScore (activeDays filteredCount : Nat) : Int :=
  let avg2 := toFixed2Num (if activeDays = 0 then 0 else (filteredCount : ℚ) / (activeDays : ℚ))
  jsRound (min 100 ((activeDays : ℚ) * 3 + avg2 * 10))

/-- Result of getWalletTxStats (rse-server/src/solanaClient.ts). -/
structure TxStats where
  txCount : Nat
  walletAgeDays : Nat
  deriving DecidableEq

/-- Result of getTokenAccountStats (rse-server/src/solanaClient.ts). -/
structure TokenAccountStats where
  tokenCount : Nat
  nftCount : Nat
  deriving DecidableEq

/-- buildFeatures from rse-server/src/features.ts, as a function of the
three upstream fetch results: repayments, defaults and humanVerified are
hardwired to 0, 0, false, and hasVC to tokenCount > 0. -/
def buildFeatures (stats : TxStats) (assets : TokenAccountStats)
    (regularity : ActivityRegularity) : WalletFeatures :=
  { txCount := stats.txCount
    walletAgeDays := stats.walletAgeDays
    nftCount := assets.nftCount
    successfulRepayments := 0
    defaults := 0
    humanVerified := false
    tokenCount := assets.tokenCount
    hasVC := decide (assets.tokenCount > 0)
    activeDaysLast30 := some regularity.activeDaysLast30
    avgTxPerActiveDay := some regularity.avgTxPerActiveDay
    activityRegularityScore := some regularity.activityRegularityScore }

/-- The score computed by POST /risk/recalculate: computeTigerScore of the
built feature record.  The route spreads deriveStripeIncomeFeatures over
the record before scoring, but the stripe keys (incomeVerified,
incomeBracket, incomeDebtRatio) are disjoint from every WalletFeatures
field, so the scored wallet features are exactly buildFeatures' output. -/
def recalculateScore (stats : TxStats) (assets : TokenAccountStats)
    (regularity : ActivityRegularity) : Int :=
  computeTigerScore (buildFeatures stats assets regularity)

/-- Profile of spec Scenario A: trustScore 250, verification hash present. -/
def profileA : UserProfile :=
  { tigerScore := 250, levelUpTier := 1, did := "did:tiger:a",
    humanVerifiedVcHash := some [1], createdAt := 0, updatedAt := 0 }

/-- Profile without a verification hash. -/
def profileNoHash : UserProfile :=
  { tigerScore := 250, levelUpTier := 1, did := "did:tiger:n",
    humanVerifiedVcHash := none, createdAt := 0, updatedAt := 0 }

/-- Scenario A application: requestedAmount 100, outstanding debt 40 USDC
(40000000 micro-units). -/
def scenarioA : ApplyInput :=
  { fieldsPresent := true, loanAmount := 100, repaymentTerm := "7_days",
    walletFormatOk := true, profile := some profileA,
    outstandingAmounts := [40000000], recentApplications := 0, now := 0 }

/-- Profile reaching tier 2: trustScore 400, so verifiedIncome 400. -/
def profileC : UserProfile :=
  { tigerScore := 400, levelUpTier := 2, did := "did:tiger:c",
    humanVerifiedVcHash := some [2], createdAt := 0, updatedAt := 0 }

/-- A tier-2 application with outstanding debt 500 USDC, driving the DTI
above the 0.4 ceiling. -/
def scenarioC : ApplyInput :=
  { fieldsPresent := true, loanAmount := 100, repaymentTerm := "7_days",
    walletFormatOk := true, profile := some profileC,
    outstandingAmounts := [500000000], recentApplications := 0, now := 0 }

/-- Profile with trustScore 10: maxEligibleAmount is
min(50, floor(8), floor(61.5)) = 8, below the viable-loan floor of 10. -/
def profileLow : UserProfile :=
  { tigerScore := 10, levelUpTier := 0, did := "did:tiger:l",
    humanVerifiedVcHash := some [3], createdAt := 0, updatedAt := 0 }

/-- A request of 5 under the 8-unit cap of profileLow. -/
def smallRequest : ApplyInput :=
  { fieldsPresent := true, loanAmount := 5, repaymentTerm := "7_days",
    walletFormatOk := true, profile := some profileLow,
    outstandingAmounts := [], recentApplications := 0, now := 0 }

/-- A request of 100000 under the 8-unit cap of profileLow (spec
Scenario E shape). -/
def hugeRequest : ApplyInput :=
  { fieldsPresent := true, loanAmount := 100000, repaymentTerm := "7_days",
    walletFormatOk := true, profile := some profileLow,
    outstandingAmounts := [], recentApplications := 0, now := 0 }

/-- Whether a decision is an AmountTooLow-category rejection. -/
def isAmountTooLow : Decision → Bool
  | .rejected (.amountTooLow _ _) => true
  | _ => false

/-- A `now` of exactly 30 days after the epoch (milliseconds), putting
every nonnegative signature timestamp inside the window. -/
def now27 : Nat := 2592000000

/-- Signatures on 27 distinct UTC days with 4 extra signatures on day 1:
31 in-window signatures over 27 active days, average 31/27. -/
def sigs27 : List (Option Nat) :=
  ((List.range 27).map fun d => some ((d + 1) * 86400)) ++
    [some 86401, some 86402, some 86403, some 86404]

set_option maxHeartbeats 1000000 in
/-- Decomposition of computeTigerScore: clamp the activity-free sum to
[0, 1000] first, then add the activity-regularity bonus. -/
theorem computeTigerScore_eq_clamp_then_bonus (f : WalletFeatures) :
    computeTigerScore f = min 1000 (max 0 (baseScoreSum f)) + activityBonus f := by
  obtain ⟨tx, age, nft, tok, rep, def_, hv, vc, ad, avg, ars⟩ := f
  simp only [computeTigerScore, baseScoreSum, activityBonus]
  cases hv <;> cases vc <;> rcases ars with _ | v <;>
    simp only [Bool.false_eq_true, if_true, if_false, reduceIte] <;>
    split_ifs <;> omega

/-- Closed form of the tier scan over the concrete LOAN_TIERS table. -/
theorem findTier_closed (s : Int) :
    findAppropriateTier LOAN_TIERS s =
      if 600 ≤ s then some tier3
      else if 400 ≤ s then some tier2
      else if 200 ≤ s then some tier1
      else if 0 ≤ s then some tier0
      else none := by
  simp only [LOAN_TIERS, findAppropriateTier, tier0, tier1, tier2, tier3]
  split_ifs <;> simp_all

/-- Evaluation of the apply pipeline on the Scenario A input: the tier-1
profile with score 250 and debt 40 is approved at min(100, 97) = 97. -/
theorem applyLoan_scenarioA_eval :
    applyLoan scenarioA = .approved (mkProposedTerms scenarioA profileA tier1 7) := by
  have hinc : getVerifiedIncome (some profileA) = 325 := by
    norm_num [getVerifiedIncome, profileA]
  have hdebt : debtOf [40000000] = 40 := by
    norm_num [debtOf, List.foldl]
  have hmax : maxEligibleAmount profileA tier1 = 97 := by
    simp only [maxEligibleAmount, hinc]
    norm_num [profileA, tier1]
  have hterm : REPAYMENT_TERMS.lookup "7_days" = some 7 := rfl
  have htier : findAppropriateTier LOAN_TIERS ((profileA.tigerScore : Nat) : Int) = some tier1 := rfl
  have htm : tier1.maxDtiRatio = 3/10 := by norm_num [tier1]
  have hlim : tier1.loanApplicationVelocityLimit = 2 := rfl
  simp only [applyLoan, scenarioA, hterm, htier, hinc, hdebt, hmax, htm, hlim,
    MIN_REQUIRED_INCOME_PROOF]
  norm_num

/-- Evaluation of the apply pipeline on the small request under the 8-unit
cap: approved at the requested 5, not rejected. -/
theorem applyLoan_smallRequest_eval :
    applyLoan smallRequest = .approved (mkProposedTerms smallRequest profileLow tier0 7) := by
  have hinc : getVerifiedIncome (some profileLow) = 205 := by
    norm_num [getVerifiedIncome, profileLow]
  have hdebt : debtOf ([] : List Nat) = 0 := rfl
  have hmax : maxEligibleAmount profileLow tier0 = 8 := by
    simp only [maxEligibleAmount, hinc]
    norm_num [profileLow, tier0]
  have hterm : REPAYMENT_TERMS.lookup "7_days" = some 7 := rfl
  have htier : findAppropriateTier LOAN_TIERS ((profileLow.tigerScore : Nat) : Int) = some tier0 := rfl
  have htm : tier0.maxDtiRatio = 2/10 := by norm_num [tier0]
  have hlim : tier0.loanApplicationVelocityLimit = 3 := rfl
  simp only [applyLoan, smallRequest, hterm, htier, hinc, hdebt, hmax, htm, hlim,
    MIN_REQUIRED_INCOME_PROOF]
  norm_num

/-- Claim C1, counterexample: at the maxed feature record the score is
1040, outside [0, 1000], refuting the claimed range. -/
theorem score_exceeds_1000_at_maxedFeatures :
    ¬ (0 ≤ computeTigerScore maxedFeatures ∧ computeTigerScore maxedFeatures ≤ 1000) := by
  decide

/-- Claim C1 as amended: for every WalletFeatures input the trust score
returned by computeTigerScore lies in [0, 1040]; the clamp to [0, 1000]
runs before the +40 activity-regularity bonus, so 1040 is the true upper
bound. -/
theorem computeTigerScore_bounds (f : WalletFeatures) :
    0 ≤ computeTigerScore f ∧ computeTigerScore f ≤ 1040 := by
  rw [computeTigerScore_eq_clamp_then_bonus]
  have hb : 0 ≤ activityBonus f ∧ activityBonus f ≤ 40 := by
    rcases hars : f.activityRegularityScore with _ | v <;>
      simp [activityBonus, hars] <;> split_ifs <;> omega
  omega

/-- Claim C2, counterexample: computeTigerScore clamps before the
activity-regularity bonus, the section 4.2 model clamps after; at the
maxed feature record they give 1040 versus 1000. -/
theorem clamp_order_counterexample :
    computeTigerScore maxedFeatures = 1040 ∧
    specScoreSection42 maxedFeatures = 1000 ∧
    computeTigerScore maxedFeatures ≠ specScoreSection42 maxedFeatures := by
  decide

/-- Claim C2 as amended: computeTigerScore is the additive model with the
stated constants, except that the clamp to [0, 1000] is applied before the
activity-regularity bonus is added, not after every term. -/
theorem computeTigerScore_clamps_before_activityBonus (f : WalletFeatures) :
    computeTigerScore f = min 1000 (max 0 (baseScoreSum f)) + activityBonus f :=
  computeTigerScore_eq_clamp_then_bonus f

/-- Claim C3: tier resolution over the fixed LOAN_TIERS table is monotone:
for scores s1 ≤ s2 that both resolve, the resolved tier levels satisfy
level(s1) ≤ level(s2). -/
theorem tierResolution_monotone (s1 s2 : Int) (t1 t2 : LoanTier) (hle : s1 ≤ s2)
    (h1 : findAppropriateTier LOAN_TIERS s1 = some t1)
    (h2 : findAppropriateTier LOAN_TIERS s2 = some t2) :
    t1.level ≤ t2.level := by
  rw [findTier_closed] at h1 h2
  split_ifs at h1 h2
  all_goals injection h1 with e1
  all_goals injection h2 with e2
  all_goals subst e1
  all_goals subst e2
  all_goals first | decide | omega

/-- Claim C3 witness: scores 250 and 700 resolve to tiers 1 and 3, and
monotonicity applies at them. -/
theorem tierResolution_monotone_witness :
    (250 : Int) ≤ 700 ∧
    findAppropriateTier LOAN_TIERS 250 = some tier1 ∧
    findAppropriateTier LOAN_TIERS 700 = some tier3 ∧
    tier1.level ≤ tier3.level :=
  ⟨by decide, rfl, rfl, tierResolution_monotone 250 700 tier1 tier3 (by decide) rfl rfl⟩

/-- Claim C4: every approval of the apply pipeline has
approvedAmount = min(requestedAmount, tier.maxLoanLimit,
floor(trustScore × 0.8), floor(verifiedIncome × 0.3)) — the second factor
being maxEligibleAmount — and in particular approvedAmount is at most
requestedAmount. -/
theorem approvedAmount_eq_min (inp : ApplyInput) (terms : ProposedTerms)
    (h : applyLoan inp = .approved terms) (p : UserProfile) (hp : inp.profile = some p)
    (t : LoanTier) (ht : findAppropriateTier LOAN_TIERS (p.tigerScore : Int) = some t) :
    terms.approvedAmount = min terms.requestedAmount (maxEligibleAmount p t) ∧
      terms.approvedAmount ≤ terms.requestedAmount := by
  simp only [applyLoan, hp, ht] at h
  repeat' split at h
  all_goals first
    | exact Decision.noConfusion h
    | (obtain e := Decision.approved.inj h; subst e;
       exact ⟨rfl, min_le_left _ _⟩)

/-- Claim C4 witness: Scenario A is approved and its approved amount is
min(100, 97) = 97, at most the requested 100. -/
theorem approvedAmount_eq_min_witness :
    applyLoan scenarioA = .approved (mkProposedTerms scenarioA profileA tier1 7) ∧
    ((mkProposedTerms scenarioA profileA tier1 7).approvedAmount =
        min (mkProposedTerms scenarioA profileA tier1 7).requestedAmount
          (maxEligibleAmount profileA tier1) ∧
      (mkProposedTerms scenarioA profileA tier1 7).approvedAmount ≤
        (mkProposedTerms scenarioA profileA tier1 7).requestedAmount) :=
  ⟨applyLoan_scenarioA_eval,
    approvedAmount_eq_min scenarioA _ applyLoan_scenarioA_eval profileA rfl tier1 rfl⟩

/-- Claim C5: once the input-validation, profile, tier and income gates
have passed, the apply pipeline emits the HighDebtToIncome rejection iff
outstandingDebt / verifiedIncome strictly exceeds tier.maxDtiRatio, and the
rejection message renders both ratios as percentages with one decimal
place; at debt 500 against income 1000 under the 0.40 tier-2 ceiling it
cites 50.0% and 40.0%. -/
theorem dtiGate_iff_and_message :
    (∀ (inp : ApplyInput) (p : UserProfile) (t : LoanTier) (days : Nat),
      inp.fieldsPresent = true → 0 < inp.loanAmount →
      REPAYMENT_TERMS.lookup inp.repaymentTerm = some days →
      inp.walletFormatOk = true → inp.profile = some p →
      findAppropriateTier LOAN_TIERS (p.tigerScore : Int) = some t →
      ¬ getVerifiedIncome (some p) < MIN_REQUIRED_INCOME_PROOF →
      (applyLoan inp = .rejected (.highDebtToIncome
          (dtiMessage (debtOf inp.outstandingAmounts / getVerifiedIncome (some p))
            t.maxDtiRatio)) ↔
        t.maxDtiRatio < debtOf inp.outstandingAmounts / getVerifiedIncome (some p))) ∧
    dtiMessage ((500 : ℚ) / 1000) tier2.maxDtiRatio =
      "High Debt-to-Income Ratio (50.0%). Maximum allowed: 40.0%" := by
  constructor
  · intro inp p t days hfp hamt hterm hwal hp ht hinc
    simp only [applyLoan, hfp, hterm, hwal, hp, ht, hinc,
      Bool.true_eq_false, if_false, reduceIte, not_le.mpr hamt]
    constructor
    · intro h
      by_contra hc
      rw [if_neg hc] at h
      split at h
      · exact Rejection.noConfusion (Decision.rejected.inj h)
      · split at h
        · split at h
          · exact Rejection.noConfusion (Decision.rejected.inj h)
          · exact Decision.noConfusion h
        · exact Decision.noConfusion h
    · intro hgt
      rw [if_pos hgt]
  · norm_num [dtiMessage, toFixed1, jsRound, tier2]
    decide

/-- Claim C5 witness: the tier-2 profile with income 400 and debt 500 has
DTI 1.25 over the 0.40 ceiling and is rejected with the formatted
message. -/
theorem dtiGate_witness :
    applyLoan scenarioC = .rejected (.highDebtToIncome
      (dtiMessage (debtOf scenarioC.outstandingAmounts / getVerifiedIncome (some profileC))
        tier2.maxDtiRatio)) :=
  (dtiGate_iff_and_message.1 scenarioC profileC tier2 7 rfl (by norm_num [scenarioC]) rfl rfl
    rfl rfl (by norm_num [getVerifiedIncome, profileC, MIN_REQUIRED_INCOME_PROOF])).mpr
    (by norm_num [tier2, debtOf, scenarioC, getVerifiedIncome, profileC, List.foldl])

/-- Claim C6, counterexample: with maxEligibleAmount 8 below the viable
floor 10 and a positive requested amount 5 below the cap, the pipeline
approves instead of rejecting with AmountTooLow. -/
theorem amountTooLow_not_forall_requested :
    isAmountTooLow (applyLoan smallRequest) = false ∧
    maxEligibleAmount profileLow tier0 < 10 ∧
    0 < smallRequest.loanAmount ∧
    smallRequest.loanAmount < maxEligibleAmount profileLow tier0 := by
  have hmax : maxEligibleAmount profileLow tier0 = 8 := by
    have hinc : getVerifiedIncome (some profileLow) = 205 := by
      norm_num [getVerifiedIncome, profileLow]
    simp only [maxEligibleAmount, hinc]
    norm_num [profileLow, tier0]
  refine ⟨?_, by rw [hmax]; norm_num, by norm_num [smallRequest], by rw [hmax]; norm_num [smallRequest]⟩
  rw [applyLoan_smallRequest_eval]
  rfl

/-- Claim C6 as amended: with the earlier gates passed, the apply pipeline
rejects with the AmountTooLow category iff the requested amount exceeds
maxEligibleAmount and maxEligibleAmount is below the viable floor of 10; a
request at or below the cap proceeds to approval even when the cap is
below 10. -/
theorem amountTooLow_iff (inp : ApplyInput) (p : UserProfile) (t : LoanTier) (days : Nat)
    (hfp : inp.fieldsPresent = true) (hamt : 0 < inp.loanAmount)
    (hterm : REPAYMENT_TERMS.lookup inp.repaymentTerm = some days)
    (hwal : inp.walletFormatOk = true) (hp : inp.profile = some p)
    (ht : findAppropriateTier LOAN_TIERS (p.tigerScore : Int) = some t)
    (hinc : ¬ getVerifiedIncome (some p) < MIN_REQUIRED_INCOME_PROOF)
    (hdti : ¬ t.maxDtiRatio < debtOf inp.outstandingAmounts / getVerifiedIncome (some p))
    (hvel : inp.recentApplications < t.loanApplicationVelocityLimit) :
    applyLoan inp = .rejected (.amountTooLow inp.loanAmount (maxEligibleAmount p t)) ↔
      (maxEligibleAmount p t < inp.loanAmount ∧ maxEligibleAmount p t < 10) := by
  simp only [applyLoan, hfp, hterm, hwal, hp, ht, hinc,
    Bool.true_eq_false, if_false, reduceIte, not_le.mpr hamt, if_neg hdti,
    if_neg (not_le.mpr hvel)]
  constructor
  · intro h
    split at h
    · split at h
      · exact ⟨by assumption, by assumption⟩
      · exact Decision.noConfusion h
    · exact Decision.noConfusion h
  · rintro ⟨h1, h2⟩
    rw [if_pos h1, if_pos h2]

/-- Claim C6 witness: the 100000-unit request over the 8-unit cap of the
score-10 profile is rejected with the AmountTooLow category. -/
theorem amountTooLow_iff_witness :
    applyLoan hugeRequest =
      .rejected (.amountTooLow hugeRequest.loanAmount (maxEligibleAmount profileLow tier0)) :=
  (amountTooLow_iff hugeRequest profileLow tier0 7 rfl (by norm_num [hugeRequest]) rfl rfl
    rfl rfl (by norm_num [getVerifiedIncome, profileLow, MIN_REQUIRED_INCOME_PROOF])
    (by norm_num [tier0, debtOf, hugeRequest, getVerifiedIncome, profileLow, List.foldl])
    (by norm_num [hugeRequest, tier0])).mpr
    (by constructor <;>
      norm_num [maxEligibleAmount, getVerifiedIncome, profileLow, tier0, hugeRequest])

/-- Claim C7, counterexample: at monthlyIncome 2000 the bracket is "low",
not "mid" as the claimed 2000 ≤ x ≤ 5000 rule requires, and at income 1
with debt 3 the ratio is the 2-decimal rounding 0.33, not 1/3. -/
theorem incomeBracket_boundary_counterexample :
    (deriveStripeIncomeFeatures 2000 0).incomeBracket = "low" ∧
    (deriveStripeIncomeFeatures 2000 0).incomeBracket ≠ "mid" ∧
    (deriveStripeIncomeFeatures 1 3).incomeDebtRatio = 33/100 ∧
    (deriveStripeIncomeFeatures 1 3).incomeDebtRatio ≠ 1/3 := by
  refine ⟨?_, ?_, ?_, ?_⟩
  · norm_num [deriveStripeIncomeFeatures]
  · norm_num [deriveStripeIncomeFeatures]
    decide
  · norm_num [deriveStripeIncomeFeatures, toFixed2Num, jsRound]
  · norm_num [deriveStripeIncomeFeatures, toFixed2Num, jsRound]

/-- Claim C7 as amended: for monthlyIncome, debt ≥ 0,
incomeVerified iff monthlyIncome > 0; the bracket is "low" iff
monthlyIncome ≤ 2000, "mid" iff 2000 < monthlyIncome ≤ 5000, "high" iff
monthlyIncome > 5000; and incomeDebtRatio is monthlyIncome itself when
debt = 0 and otherwise monthlyIncome / debt rounded to 2 decimal
places. -/
theorem stripeIncomeFeatures_spec (monthlyIncome debt : ℚ)
    (hinc : 0 ≤ monthlyIncome) (hdebt : 0 ≤ debt) :
    ((deriveStripeIncomeFeatures monthlyIncome debt).incomeVerified = true ↔ 0 < monthlyIncome) ∧
    ((deriveStripeIncomeFeatures monthlyIncome debt).incomeBracket = "low" ↔
      monthlyIncome ≤ 2000) ∧
    ((deriveStripeIncomeFeatures monthlyIncome debt).incomeBracket = "mid" ↔
      2000 < monthlyIncome ∧ monthlyIncome ≤ 5000) ∧
    ((deriveStripeIncomeFeatures monthlyIncome debt).incomeBracket = "high" ↔
      5000 < monthlyIncome) ∧
    (debt = 0 → (deriveStripeIncomeFeatures monthlyIncome debt).incomeDebtRatio = monthlyIncome) ∧
    (debt ≠ 0 → (deriveStripeIncomeFeatures monthlyIncome debt).incomeDebtRatio =
      toFixed2Num (monthlyIncome / debt)) := by
  simp only [deriveStripeIncomeFeatures]
  refine ⟨by simp, ?_, ?_, ?_, ?_, ?_⟩
  · by_cases h5 : monthlyIncome > 5000 <;> by_cases h2 : monthlyIncome > 2000 <;>
      simp only [if_pos, if_neg, h5, h2, reduceIte] <;>
      simp <;>
      first
        | linarith
        | (intro hh; linarith)
        | (rintro ⟨a, b⟩; linarith)
        | (constructor <;> linarith)
  · by_cases h5 : monthlyIncome > 5000 <;> by_cases h2 : monthlyIncome > 2000 <;>
      simp only [if_pos, if_neg, h5, h2, reduceIte] <;>
      simp <;>
      first
        | linarith
        | (intro hh; linarith)
        | (rintro ⟨a, b⟩; linarith)
        | (constructor <;> linarith)
  · by_cases h5 : monthlyIncome > 5000 <;> by_cases h2 : monthlyIncome > 2000 <;>
      simp only [if_pos, if_neg, h5, h2, reduceIte] <;>
      simp <;>
      first
        | linarith
        | (intro hh; linarith)
        | (rintro ⟨a, b⟩; linarith)
        | (constructor <;> linarith)
  · intro h0; simp [h0]
  · intro h0; simp [h0]

/-- Claim C7 witness: income 3000 with debt 4 is verified, in the "mid"
bracket, with ratio toFixed2Num(750). -/
theorem stripeIncomeFeatures_witness :
    (deriveStripeIncomeFeatures 3000 4).incomeVerified = true ∧
    (deriveStripeIncomeFeatures 3000 4).incomeBracket = "mid" ∧
    (deriveStripeIncomeFeatures 3000 4).incomeDebtRatio = toFixed2Num (3000 / 4) :=
  ⟨(stripeIncomeFeatures_spec 3000 4 (by norm_num) (by norm_num)).1.mpr (by norm_num),
   (stripeIncomeFeatures_spec 3000 4 (by norm_num) (by norm_num)).2.2.1.mpr (by norm_num),
   (stripeIncomeFeatures_spec 3000 4 (by norm_num) (by norm_num)).2.2.2.2.2 (by norm_num)⟩

/-- Claim C8, counterexample: with 31 in-window signatures over 27 active
days the code scores round(92.481...) = 92 from the unrounded average,
while the claimed formula with the 2-decimal average 1.15 gives
round(92.5) = 93. -/
theorem activityScore_unrounded_counterexample :
    (getActivityRegularity now27 sigs27).activeDaysLast30 = 27 ∧
    (recentSigs now27 sigs27).length = 31 ∧
    (getActivityRegularity now27 sigs27).avgTxPerActiveDay = toFixed2Num (31/27) ∧
    (getActivityRegularity now27 sigs27).activityRegularityScore = 92 ∧
    claimActivityScore 27 31 = 93 := by
  have hdays : (((recentSigs now27 sigs27).map utcDay).dedup).length = 27 := by decide
  have hlen : (recentSigs now27 sigs27).length = 31 := by decide
  refine ⟨?_, hlen, ?_, ?_, ?_⟩
  · simp only [getActivityRegularity, hdays]
  · simp only [getActivityRegularity, hdays, hlen]
    norm_num
  · simp only [getActivityRegularity, hdays, hlen]
    norm_num [toFixed2Num, jsRound]
  · norm_num [claimActivityScore, toFixed2Num, jsRound]

/-- Claim C8 as amended: over the filtered signatures, activeDaysLast30 is
the number of distinct UTC days, avgTxPerActiveDay is the quotient rounded
to 2 decimal places, and activityRegularityScore is
round(min(100, activeDays × 3 + avg × 10)) where the UNROUNDED quotient
enters the formula; the 2-decimal rounding applies only to the returned
average field. -/
theorem getActivityRegularity_spec (now : Nat) (sigs : List (Option Nat)) :
    (getActivityRegularity now sigs).activeDaysLast30 =
        (((recentSigs now sigs).map utcDay).toFinset).card ∧
    (getActivityRegularity now sigs).avgTxPerActiveDay =
        toFixed2Num (if ((recentSigs now sigs).map utcDay).toFinset.card = 0 then 0
          else ((recentSigs now sigs).length : ℚ) /
            (((recentSigs now sigs).map utcDay).toFinset.card : ℚ)) ∧
    (getActivityRegularity now sigs).activityRegularityScore =
        jsRound (min 100 (((((recentSigs now sigs).map utcDay).toFinset.card : ℚ)) * 3 +
          (if ((recentSigs now sigs).map utcDay).toFinset.card = 0 then 0
            else ((recentSigs now sigs).length : ℚ) /
              (((recentSigs now sigs).map utcDay).toFinset.card : ℚ)) * 10)) := by
  rw [List.card_toFinset]
  exact ⟨rfl, rfl, rfl⟩

/-- Claim C9: getVerifiedIncome is 0 for every profile without a
verification hash, and min(200 + floor(trustScore × 0.5), 10000)
otherwise; Scenario A's verified profile with trustScore 250 yields
325. -/
theorem getVerifiedIncome_spec :
    (∀ p : UserProfile, p.humanVerifiedVcHash = none → getVerifiedIncome (some p) = 0) ∧
    (∀ (p : UserProfile) (h : List Nat), p.humanVerifiedVcHash = some h →
      getVerifiedIncome (some p) =
        min (200 + ((Int.floor ((p.tigerScore : ℚ) * 0.5) : Int) : ℚ)) 10000) ∧
    getVerifiedIncome (some profileA) = 325 := by
  refine ⟨?_, ?_, by norm_num [getVerifiedIncome, profileA]⟩
  · intro p hnone; simp [getVerifiedIncome, hnone]
  · intro p h hsome; simp [getVerifiedIncome, hsome]

/-- Claim C9 witness: a hashless profile yields 0, and Scenario A's profile
yields min(200 + 125, 10000). -/
theorem getVerifiedIncome_witness :
    getVerifiedIncome (some profileNoHash) = 0 ∧
    getVerifiedIncome (some profileA) =
      min (200 + ((Int.floor ((250 : ℚ) * 0.5) : Int) : ℚ)) 10000 :=
  ⟨getVerifiedIncome_spec.1 profileNoHash rfl,
   by simpa [profileA] using getVerifiedIncome_spec.2.1 profileA [1] rfl⟩

/-- Claim C10: every feature record built by buildFeatures has
humanVerified = false, successfulRepayments = 0, defaults = 0 and
hasVC iff tokenCount > 0, so a /risk/recalculate score never contains the
+80 human-verification, repayment or default terms and gets the +30 bonus
exactly when the wallet holds a token account. -/
theorem recalculateScore_spec (stats : TxStats) (assets : TokenAccountStats)
    (reg : ActivityRegularity) :
    (buildFeatures stats assets reg).humanVerified = false ∧
    (buildFeatures stats assets reg).successfulRepayments = 0 ∧
    (buildFeatures stats assets reg).defaults = 0 ∧
    ((buildFeatures stats assets reg).hasVC = true ↔ 0 < assets.tokenCount) ∧
    recalculateScore stats assets reg =
      min 1000 (max 0 (300 + (if stats.walletAgeDays > 180 then 40 else 0)
        + (if stats.txCount > 100 then 40 else 0)
        + (if assets.nftCount > 0 then 20 else 0)
        + (if assets.tokenCount > 0 then 30 else 0)))
      + (if reg.activityRegularityScore ≠ 0 ∧ reg.activityRegularityScore > 40
          then 40 else 0) := by
  refine ⟨rfl, rfl, rfl, by simp [buildFeatures], ?_⟩
  rw [recalculateScore, computeTigerScore_eq_clamp_then_bonus]
  simp only [baseScoreSum, activityBonus, buildFeatures]
  simp only [Bool.false_eq_true, if_false, reduceIte, decide_eq_true_eq]
  split_ifs <;> omega

end TigerTrust
